import Mathlib

/-!
Verification development for the RTI_Web_Sim effect-pipeline and
capture/export pipeline.  Definitions are shallow embeddings of the
TypeScript source:

* `src/effects/*` — effect registry, per-effect `defaults` / `createNode` /
  `setParams` / `getParams`, and the state machine `applyEffect`.
* `src/controls/settings.ts` — `gatherSettings` / `applySettingsData`
  (effect portion) and `src/controls/index.ts` — `rebuildEffectUI`.
* `src/controls/snapshot.ts` and `src/controls/export-frames.ts` — the
  float-to-8-bit dithered conversion, screen-rect projection, capture
  region selection, and the pause/cleanup control flow.

Numbers are modelled as exact rationals (shader uniforms and JS numbers),
except the CMYK halftone shader math, which uses `Real.sqrt` and is
modelled over the reals.
-/

namespace RTIWebSim

/-- Runtime value held in a JS parameter record (`Record<string, unknown>`),
restricted to the numeric and boolean values the effect contracts use. -/
inductive PVal where
  | num (x : ℚ)
  | boolean (b : Bool)
deriving DecidableEq, Repr

/-- JS `Number(v)` coercion for the values we model (used by comparisons
such as `(colorModeU.value as number) > 0.5` when the stored value is a
boolean). -/
def PVal.toNum : PVal → ℚ
  | .num x => x
  | .boolean b => if b then 1 else 0

/-- JS truthiness of a value (used by `(p.invert as boolean) ? 1.0 : 0.0`:
the conditional tests the runtime value, so a numeric `0` is falsy). -/
def PVal.truthy : PVal → Bool
  | .num x => x != 0
  | .boolean b => b

/-- Flat key-to-value parameter record. Keys are unique, in the insertion
order of the source object literal. -/
abbrev PRec := List (String × PVal)

/-- Property read `p.key` on a record (`undefined`, i.e. `none`, when the
key is absent; the source guards every write with `p.key != null`). -/
def PRec.get (p : PRec) (k : String) : Option PVal :=
  List.lookup k p

/-- Abstract GPU texture handle (the sampled image resource). -/
structure Texture where
  id : ℕ
deriving DecidableEq, Repr

/-- Two-component vector of rationals (`THREE.Vector2`). -/
abbrev Vec2 := ℚ × ℚ

/-- Identifier of an effect definition in the registry
(`EFFECTS = [normalMapVis, sobelEdge, emboss, grayscale,
chromaticAberration, halftone, halftoneCMYK]`). -/
inductive EffKind where
  | normalMap
  | sobel
  | emboss
  | grayscale
  | chromatic
  | halftone
  | halftoneCMYK
deriving DecidableEq, Repr

/-- The `name` field of each effect definition. -/
def effName : EffKind → String
  | .normalMap => "Normal Map"
  | .sobel => "Sobel Edge"
  | .emboss => "Emboss"
  | .grayscale => "Grayscale"
  | .chromatic => "Chromatic Aberration"
  | .halftone => "Halftone"
  | .halftoneCMYK => "Halftone CMYK"

/-- The `defaults()` record of each effect definition, with fields in
source order.  Note `halftone.defaults()` gives `colorMode: 0`, a number,
while the other boolean-typed field (`sobel.invert`) defaults to `false`. -/
def effDefaults : EffKind → PRec
  | .normalMap => [("strength", .num 2)]
  | .sobel => [("threshold", .num (1/10)), ("invert", .boolean false)]
  | .emboss => [("strength", .num 1), ("angle", .num 135)]
  | .grayscale =>
      [("rWeight", .num (299/1000)), ("gWeight", .num (587/1000)),
       ("bWeight", .num (114/1000))]
  | .chromatic =>
      [("intensity", .num (1/100)), ("centerX", .num (1/2)),
       ("centerY", .num (1/2))]
  | .halftone =>
      [("dotSize", .num 8), ("angle", .num 45), ("colorMode", .num 0),
       ("mode", .num 0), ("ringThickness", .num (1/10))]
  | .halftoneCMYK =>
      [("pixelSize", .num 8), ("dotSize", .num (7/10)),
       ("cyanStrength", .num 1), ("magentaStrength", .num 1),
       ("yellowStrength", .num 1), ("blackStrength", .num 1)]

/-- Mutable uniform state of a live effect instance, one constructor per
effect.  Fields mirror the `uniform(...)` leaves read and written by
`getParams` / `setParams`.  The `cacheAngle` fields stand for the
`cosA` / `sinA` uniform pair of emboss and halftone: those two uniforms
always hold the cosine and sine of `cacheAngle` degrees (they are
recomputed together from the incoming angle inside `setParams`), so the
angle they were computed from represents them exactly while keeping the
state rational-valued. -/
inductive Uni where
  | normalMap (strength : PVal)
  | sobel (threshold invert : PVal)
  | emboss (strength angle : PVal) (cacheAngle : ℚ)
  | grayscale (rW gW bW : PVal)
  | chromatic (intensity centerX centerY : PVal)
  | halftone (dotSize angle colorMode mode ringThickness : PVal)
      (cacheAngle : ℚ)
  | halftoneCMYK (pixelSize dotSize cS mS yS kS : PVal)
deriving DecidableEq, Repr

/-- Initial uniform values established inside each `createNode`
(`uniform(0.1)`, `uniform(0.0)`, ...). -/
def uniInit : EffKind → Uni
  | .normalMap => .normalMap (.num 2)
  | .sobel => .sobel (.num (1/10)) (.num 0)
  | .emboss => .emboss (.num 1) (.num 135) 135
  | .grayscale => .grayscale (.num (299/1000)) (.num (587/1000)) (.num (114/1000))
  | .chromatic => .chromatic (.num (1/100)) (.num (1/2)) (.num (1/2))
  | .halftone => .halftone (.num 8) (.num 45) (.num 0) (.num 0) (.num (1/10)) 45
  | .halftoneCMYK =>
      .halftoneCMYK (.num 8) (.num (7/10)) (.num 1) (.num 1) (.num 1) (.num 1)

/-- The `setParams` closure of each instance: every key present (and not
null) overwrites its uniform.  Numeric uniforms receive the value verbatim
(the `as number` cast is a compile-time no-op); the boolean-coerced
uniforms (`invert`, `colorMode`) store `1.0` or `0.0` by JS truthiness;
angle updates also refresh the cosine/sine cache. -/
def uniSet (u : Uni) (p : PRec) : Uni :=
  match u with
  | .normalMap s =>
      .normalMap ((p.get "strength").getD s)
  | .sobel t i =>
      let t := (p.get "threshold").getD t
      let i := match p.get "invert" with
        | some v => PVal.num (if v.truthy then 1 else 0)
        | none => i
      .sobel t i
  | .emboss s a ca =>
      let s := (p.get "strength").getD s
      match p.get "angle" with
      | some v => .emboss s v v.toNum
      | none => .emboss s a ca
  | .grayscale r g b =>
      .grayscale ((p.get "rWeight").getD r) ((p.get "gWeight").getD g)
        ((p.get "bWeight").getD b)
  | .chromatic it cx cy =>
      .chromatic ((p.get "intensity").getD it) ((p.get "centerX").getD cx)
        ((p.get "centerY").getD cy)
  | .halftone d a cm m rt ca =>
      let d := (p.get "dotSize").getD d
      let (a, ca) := match p.get "angle" with
        | some v => (v, v.toNum)
        | none => (a, ca)
      let cm := match p.get "colorMode" with
        | some v => PVal.num (if v.truthy then 1 else 0)
        | none => cm
      let m := (p.get "mode").getD m
      let rt := (p.get "ringThickness").getD rt
      .halftone d a cm m rt ca
  | .halftoneCMYK ps d c m y k =>
      .halftoneCMYK ((p.get "pixelSize").getD ps) ((p.get "dotSize").getD d)
        ((p.get "cyanStrength").getD c) ((p.get "magentaStrength").getD m)
        ((p.get "yellowStrength").getD y) ((p.get "blackStrength").getD k)

/-- The `getParams` closure of each instance.  Numeric uniforms are
returned verbatim; the boolean-coerced uniforms are read back through
`(u.value as number) > 0.5`. -/
def uniGet : Uni → PRec
  | .normalMap s => [("strength", s)]
  | .sobel t i =>
      [("threshold", t), ("invert", .boolean (decide (i.toNum > 1/2)))]
  | .emboss s a _ => [("strength", s), ("angle", a)]
  | .grayscale r g b => [("rWeight", r), ("gWeight", g), ("bWeight", b)]
  | .chromatic it cx cy =>
      [("intensity", it), ("centerX", cx), ("centerY", cy)]
  | .halftone d a cm m rt _ =>
      [("dotSize", d), ("angle", a),
       ("colorMode", .boolean (decide (cm.toNum > 1/2))),
       ("mode", m), ("ringThickness", rt)]
  | .halftoneCMYK ps d c m y k =>
      [("pixelSize", ps), ("dotSize", d), ("cyanStrength", c),
       ("magentaStrength", m), ("yellowStrength", y), ("blackStrength", k)]

/-- Live effect instance: the sampled texture, the per-pixel size uniform
passed at construction, and the uniform leaves.  The compiled `colorNode`
graph is a pure function of these, so the record represents it. -/
structure Inst where
  tex : Texture
  px : Vec2
  u : Uni
deriving DecidableEq, Repr

/-- The `createNode(tex, pixelSize)` builder of an effect definition. -/
def createNode (k : EffKind) (tex : Texture) (px : Vec2) : Inst :=
  ⟨tex, px, uniInit k⟩

/-- `instance.setParams(p)`. -/
def instSetParams (i : Inst) (p : PRec) : Inst :=
  { i with u := uniSet i.u p }

/-- `instance.getParams()`. -/
def instGetParams (i : Inst) : PRec :=
  uniGet i.u

/-- `EFFECT_MAP.get(name)`: lookup by `name` over the registry list. -/
def kindOfName (s : String) : Option EffKind :=
  if s = "Normal Map" then some .normalMap
  else if s = "Sobel Edge" then some .sobel
  else if s = "Emboss" then some .emboss
  else if s = "Grayscale" then some .grayscale
  else if s = "Chromatic Aberration" then some .chromatic
  else if s = "Halftone" then some .halftone
  else if s = "Halftone CMYK" then some .halftoneCMYK
  else none

/-- Effect runtime state (`EffectState` in `src/effects/index.ts`):
selected name (with the `"None"` sentinel), nullable live instance, and
the cached serializable parameter record. -/
structure EffectState where
  selected : String
  inst : Option Inst
  params : PRec
deriving DecidableEq, Repr

/-- `createEffectState()`. -/
def createEffectState : EffectState :=
  { selected := "None", inst := none, params := [] }

/-- The material fields `applyEffect` touches: the assigned compiled graph
(`colorNode`, represented by the instance it was compiled from; `none` is
the cleared/null state) and the `needsUpdate` flag. -/
structure Material where
  colorNode : Option Inst
  needsUpdate : Bool
deriving DecidableEq, Repr

/-- Shallow embedding of `applyEffect(state, material, currentTexture,
pixelSize)` from `src/effects/index.ts`.  The source tests
`state.selected === "None" || !currentTexture` first, then looks the name
up in `EFFECT_MAP`; a missing name clears any previously-applied colour
node and nulls the instance.  Otherwise it builds a fresh instance,
applies `state.params` when non-empty, and assigns the compiled graph. -/
def applyEffect (st : EffectState) (mat : Material) (currentTexture : Option Texture)
    (pixelSize : Vec2) : EffectState × Material :=
  let clear : Material → Material := fun m =>
    if m.colorNode ≠ none then { colorNode := none, needsUpdate := true } else m
  match currentTexture with
  | none => ({ st with inst := none }, clear mat)
  | some tex =>
    if st.selected = "None" then
      ({ st with inst := none }, clear mat)
    else
      match kindOfName st.selected with
      | none => ({ st with inst := none }, clear mat)
      | some k =>
        let i0 := createNode k tex pixelSize
        let i := if st.params.length > 0 then instSetParams i0 st.params else i0
        ({ st with inst := some i }, { colorNode := some i, needsUpdate := true })

/-- Shallow embedding of `rebuildEffectUI()` from `src/controls/index.ts`
(UI-folder bookkeeping omitted).  It copies the dropdown selection into
`effectState.selected`; for `"None"` it empties `params` and reapplies;
for a registry name it RESETS `params` to `effect.defaults()` and
reapplies; for an unknown name it returns without reapplying.  The
dropdown value is the `pick` argument. -/
def rebuildEffectUI (pick : String) (st : EffectState) (mat : Material)
    (currentTexture : Option Texture) (pixelSize : Vec2) : EffectState × Material :=
  let st := { st with selected := pick }
  if pick = "None" then
    applyEffect { st with params := [] } mat currentTexture pixelSize
  else
    match kindOfName pick with
    | none => (st, mat)
    | some k => applyEffect { st with params := effDefaults k } mat currentTexture pixelSize

/-- Effect portion of `gatherSettings` (`src/controls/settings.ts`): an
active selection exports `{ name: eState.selected, params: {...eState.params} }`,
otherwise the field is absent. -/
def gatherSettingsEffect (st : EffectState) : Option (String × PRec) :=
  if st.selected ≠ "None" then some (st.selected, st.params) else none

/-- Effect portion of `applySettingsData` (`src/controls/settings.ts`),
with `rebuildEffectUI` as the `rebuildFn` callback, as wired in
`src/controls/index.ts`: it writes `data.effect?.name ?? "None"` into both
the dropdown object and `eState.selected`, copies `data.effect.params`
into `eState.params` when present, then invokes the rebuild callback. -/
def applySettingsDataEffect (dataEffect : Option (String × PRec)) (st : EffectState)
    (mat : Material) (currentTexture : Option Texture) (pixelSize : Vec2) :
    EffectState × Material :=
  let name := (dataEffect.map Prod.fst).getD "None"
  let st := { st with selected := name }
  let st := match dataEffect with
    | some (_, p) => { st with params := p }
    | none => st
  rebuildEffectUI name st mat currentTexture pixelSize

/-- JS `Math.round` (half-up, also for negatives) on a rational. -/
def jsRound (x : ℚ) : ℤ := ⌊x + 1/2⌋

/-- The 8x8 Bayer ordered-dither matrix literal `BAYER8` declared inside
`saveSnapshot` (`src/controls/snapshot.ts`). -/
def snapBAYER8 : List ℕ :=
  [0, 48, 12, 60, 3, 51, 15, 63,
   32, 16, 44, 28, 35, 19, 47, 31,
   8, 56, 4, 52, 11, 59, 7, 55,
   40, 24, 36, 20, 43, 27, 39, 23,
   2, 50, 14, 62, 1, 49, 13, 61,
   34, 18, 46, 30, 33, 17, 45, 29,
   10, 58, 6, 54, 9, 57, 5, 53,
   42, 26, 38, 22, 41, 25, 37, 21]

/-- The module-level `_BAYER8` literal in `src/controls/export-frames.ts`
(the same 64 entries). -/
def exportBAYER8 : List ℕ :=
  [0, 48, 12, 60, 3, 51, 15, 63,
   32, 16, 44, 28, 35, 19, 47, 31,
   8, 56, 4, 52, 11, 59, 7, 55,
   40, 24, 36, 20, 43, 27, 39, 23,
   2, 50, 14, 62, 1, 49, 13, 61,
   34, 18, 46, 30, 33, 17, 45, 29,
   10, 58, 6, 54, 9, 57, 5, 53,
   42, 26, 38, 22, 41, 25, 37, 21]

/-- Per-channel dithered quantisation
`Math.max(0, Math.min(255, Math.round(v * 255 + t)))`. -/
def quantRGB (v t : ℚ) : ℤ := max 0 (min 255 (jsRound (v * 255 + t)))

/-- Alpha quantisation `Math.max(0, Math.min(255, Math.round(v * 255)))`. -/
def quantAlpha (v : ℚ) : ℤ := max 0 (min 255 (jsRound (v * 255)))

/-- The `floatToDitheredUint8` helper inside `saveSnapshot`
(`src/controls/snapshot.ts`): converts a possibly row-padded float RGBA
readback buffer to 8-bit with Bayer dithering.  `srcY = y`: NO row flip
(the source comment notes the readback region already uses a bottom-left
origin, so flipping again would invert the export).  The destination
buffer `dst[(y*width + x)*4 + c]` is flattened row-major. -/
def snapFloatToDitheredUint8 (src : ℕ → ℚ) (width height alignedFloatsPerRow : ℕ) :
    List ℤ :=
  (List.range height).flatMap (fun y =>
    let srcY := y
    let srcRowOff := srcY * alignedFloatsPerRow
    (List.range width).flatMap (fun x =>
      let si := srcRowOff + x * 4
      let t : ℚ := ((snapBAYER8.getD ((y % 8) * 8 + (x % 8)) 0 : ℚ) / 64 - 1/2) * (3/2)
      [quantRGB (src si) t, quantRGB (src (si + 1)) t,
       quantRGB (src (si + 2)) t, quantAlpha (src (si + 3))]))

/-- The module-level `_floatToDitheredUint8` in
`src/controls/export-frames.ts`: same conversion but with
`srcY = height - 1 - y` (flips rows, bottom-to-top readback assumed). -/
def exportFloatToDitheredUint8 (src : ℕ → ℚ) (width height alignedFloatsPerRow : ℕ) :
    List ℤ :=
  (List.range height).flatMap (fun y =>
    let srcY := height - 1 - y
    let srcRowOff := srcY * alignedFloatsPerRow
    (List.range width).flatMap (fun x =>
      let si := srcRowOff + x * 4
      let t : ℚ := ((exportBAYER8.getD ((y % 8) * 8 + (x % 8)) 0 : ℚ) / 64 - 1/2) * (3/2)
      [quantRGB (src si) t, quantRGB (src (si + 1)) t,
       quantRGB (src (si + 2)) t, quantAlpha (src (si + 3))]))

/-- Reversal of the row order of a row-padded buffer with `height` rows of
`stride` floats each (index-level description of reading the same buffer
bottom-to-top). -/
def rowFlipBuffer (height stride : ℕ) (src : ℕ → ℚ) : ℕ → ℚ :=
  fun i => src ((height - 1 - i / stride) * stride + i % stride)

/-- A 3D point (a `Box3` corner before projection). -/
abbrev Q3 := ℚ × ℚ × ℚ

/-- Crop rectangle in device pixels, top-left origin
(`CropRect` in `src/controls/snapshot.ts`; the `{sx, sy, sw, sh}` record
in `src/controls/export-frames.ts` has the same four fields). -/
structure CropRect where
  x : ℤ
  y : ℤ
  width : ℤ
  height : ℤ
deriving DecidableEq, Repr

/-- Minimum of a list of rationals.  The source folds `Math.min` starting
from `Infinity` over the (always eight-element) corner list, which equals
the minimum of the list; the default is never used. -/
def foldMinQ : List ℚ → ℚ
  | [] => 0
  | x :: xs => xs.foldl min x

/-- Maximum of a list of rationals (fold of `Math.max` from `-Infinity`). -/
def foldMaxQ : List ℚ → ℚ
  | [] => 0
  | x :: xs => xs.foldl max x

/-- Shallow embedding of `computePlaneBounds` (`src/controls/snapshot.ts`)
and of the textually identical `_planeScreenRect`
(`src/controls/export-frames.ts`).  The camera and the world-space
bounding box enter as the projection function `proj` (the
`corner.project(camera)` call, returning NDC x and y) and the box extrema
`bmin`, `bmax`; the eight corners are enumerated in source order.  Screen
coordinates flip Y, the rectangle is clamped to the canvas, and a clamped
width or height of zero or less yields `null` (off-screen). -/
def computePlaneBounds (proj : Q3 → ℚ × ℚ) (bmin bmax : Q3) (w h : ℤ) :
    Option CropRect :=
  let corners : List Q3 :=
    [(bmin.1, bmin.2.1, bmin.2.2), (bmin.1, bmin.2.1, bmax.2.2),
     (bmin.1, bmax.2.1, bmin.2.2), (bmin.1, bmax.2.1, bmax.2.2),
     (bmax.1, bmin.2.1, bmin.2.2), (bmax.1, bmin.2.1, bmax.2.2),
     (bmax.1, bmax.2.1, bmin.2.2), (bmax.1, bmax.2.1, bmax.2.2)]
  let screen : List (ℚ × ℚ) := corners.map (fun c =>
    let n := proj c
    (((n.1 + 1) / 2) * (w : ℚ), ((1 - n.2) / 2) * (h : ℚ)))
  let minX := foldMinQ (screen.map Prod.fst)
  let minY := foldMinQ (screen.map Prod.snd)
  let maxX := foldMaxQ (screen.map Prod.fst)
  let maxY := foldMaxQ (screen.map Prod.snd)
  let x := max 0 ⌊minX⌋
  let y := max 0 ⌊minY⌋
  let width := min w ⌈maxX⌉ - x
  let height := min h ⌈maxY⌉ - y
  if width ≤ 0 ∨ height ≤ 0 then none
  else some ⟨x, y, width, height⟩

/-- Readback region chosen by `saveSnapshot` (`src/controls/snapshot.ts`):
`rx = bounds ? bounds.x : 0`, `ry = bounds ? h - bounds.y - bounds.height : 0`,
`rw = bounds ? bounds.width : w`, `rh = bounds ? bounds.height : h`.  The
output canvas is sized `rw` by `rh`. -/
def snapshotReadRegion (bounds : Option CropRect) (w h : ℤ) : ℤ × ℤ × ℤ × ℤ :=
  ((match bounds with | some b => b.x | none => 0),
   (match bounds with | some b => h - b.y - b.height | none => 0),
   (match bounds with | some b => b.width | none => w),
   (match bounds with | some b => b.height | none => h))

/-- Readback region chosen per step by `exportAnimationFrames`
(`src/controls/export-frames.ts`), identical fallback: a `null` rect reads
the full frame.  The per-frame canvas is sized `rw` by `rh`. -/
def exportReadRegion (rect : Option CropRect) (w h : ℤ) : ℤ × ℤ × ℤ × ℤ :=
  ((match rect with | some r => r.x | none => 0),
   (match rect with | some r => h - r.y - r.height | none => 0),
   (match rect with | some r => r.width | none => w),
   (match rect with | some r => r.height | none => h))

/-- Azimuth assigned at 0-indexed step `i` by `exportAnimationFrames`:
`fraction = i / Math.max(steps - 1, 1)` and
`azimuth = startAzimuth + (endAzimuth - startAzimuth) * fraction`. -/
def azimuthAt (startAzimuth endAzimuth : ℚ) (steps : ℕ) (i : ℕ) : ℚ :=
  startAzimuth + (endAzimuth - startAzimuth) * ((i : ℚ) / max ((steps : ℚ) - 1) 1)

/-- Normalised luminance coefficients of the Grayscale effect
(`grayscale.createNode`): each raw weight divided by
`max(rW + gW + bW, 0.001)`. -/
def grayNormCoeffs (rW gW bW : ℚ) : ℚ × ℚ × ℚ :=
  let sum := rW + gW + bW
  (rW / max sum (1/1000), gW / max sum (1/1000), bW / max sum (1/1000))

/-- Renderer/loop/material state tracked across a capture or export call:
whether the per-frame callback is registered (`setAnimationLoop` /
`startRenderLoop`), the bound output target (`none` is the presentable
canvas, `some 1` the offscreen capture target), the disposal flag of the
capture RenderTarget, the plane material dithering flag, the snapshot
re-entrancy flag, and the light azimuth. -/
structure CaptureState where
  loopRunning : Bool
  outputTarget : Option ℕ
  rtDisposed : Bool
  dithering : Bool
  snapshotInProgress : Bool
  azimuth : ℚ
deriving DecidableEq, Repr

/-- Per-step loop of `exportAnimationFrames`: step `i` assigns the swept
azimuth, renders, and awaits the GPU readback (the sole fallible
suspension point, given as `readback`); a readback failure aborts the loop
and propagates.  The first argument counts remaining steps
(`steps - i`). -/
def exportLoopSteps (startAzimuth endAzimuth : ℚ) (steps : ℕ)
    (readback : ℕ → Except ℕ Unit) :
    ℕ → ℕ → CaptureState → Except ℕ Unit × CaptureState
  | 0, _, st => (.ok (), st)
  | r + 1, i, st =>
    let st := { st with azimuth := azimuthAt startAzimuth endAzimuth steps i }
    match readback i with
    | .error e => (.error e, st)
    | .ok _ => exportLoopSteps startAzimuth endAzimuth steps readback r (i + 1) st

/-- Shallow embedding of the control flow of `exportAnimationFrames`
(`src/controls/export-frames.ts`): pause the loop, create the float
RenderTarget, save and raise the material dithering flag, redirect output
to the RenderTarget, run the step loop inside `try`, and in `finally`
dispose the target, restore dithering, restore the canvas output target
and resume the render loop; a readback error still propagates to the
caller.  Pixel conversion and ZIP assembly are pure and modelled
separately. -/
def runExportAnimationFrames (st0 : CaptureState) (startAzimuth endAzimuth : ℚ)
    (steps : ℕ) (readback : ℕ → Except ℕ Unit) : Except ℕ Unit × CaptureState :=
  let st := { st0 with loopRunning := false }
  let st := { st with rtDisposed := false }
  let prevDither := st.dithering
  let st := { st with dithering := true }
  let st := { st with outputTarget := some 1 }
  let body := exportLoopSteps startAzimuth endAzimuth steps readback steps 0 st
  (body.1,
   { body.2 with
       rtDisposed := true, dithering := prevDither,
       outputTarget := none, loopRunning := true })

/-- Shallow embedding of the control flow of `saveSnapshot`
(`src/controls/snapshot.ts`): re-entrant calls return immediately;
otherwise the guard flag is set, the float RenderTarget created, the loop
paused, output redirected inside `try`, and the single GPU readback
awaited.  A readback failure is caught (best-effort canvas fallback, no
tracked state change); the `finally` block disposes the target, restores
the canvas output target, resumes the render loop and clears the guard
flag.  This version of `saveSnapshot` never touches the material
dithering flag. -/
def runSaveSnapshot (st0 : CaptureState) (readback : Except ℕ Unit) : CaptureState :=
  if st0.snapshotInProgress then st0
  else
    let st := { st0 with snapshotInProgress := true }
    let st := { st with rtDisposed := false }
    let st := { st with loopRunning := false }
    let st := { st with outputTarget := some 1 }
    let st := match readback with
      | .ok _ => st
      | .error _ => st
    { st with
        rtDisposed := true, outputTarget := none,
        loopRunning := true, snapshotInProgress := false }

/-- Source image as a pure function from UV coordinates to an RGB
sample. -/
abbrev Image := ℚ → ℚ → ℚ × ℚ × ℚ

/-- BT.601 luminance `dot(rgb, vec3(0.299, 0.587, 0.114))`
(`LUMA_WEIGHTS` in `src/effects/common.ts`). -/
def lumaBT601 (c : ℚ × ℚ × ℚ) : ℚ :=
  c.1 * (299/1000) + c.2.1 * (587/1000) + c.2.2 * (114/1000)

/-- The shared `sampleGray` helper (`src/effects/common.ts`): luminance of
the texture sample at `uv() + offset`. -/
def sampleGray (img : Image) (u v ox oy : ℚ) : ℚ :=
  lumaBT601 (img (u + ox) (v + oy))

/-- Horizontal Sobel gradient exactly as chained in
`sobelEdge.createNode` (`src/effects/sobel.ts`; `normalMapVis` and
`emboss` repeat the same chain verbatim). -/
def sobelGx (img : Image) (u v dx dy : ℚ) : ℚ :=
  -sampleGray img u v (-dx) (-dy)
    + sampleGray img u v dx (-dy)
    + sampleGray img u v (-dx) 0 * (-2)
    + sampleGray img u v dx 0 * 2
    + -sampleGray img u v (-dx) dy
    + sampleGray img u v dx dy

/-- Vertical Sobel gradient exactly as chained in
`sobelEdge.createNode`. -/
def sobelGy (img : Image) (u v dx dy : ℚ) : ℚ :=
  -sampleGray img u v (-dx) (-dy)
    + sampleGray img u v 0 (-dy) * (-2)
    + -sampleGray img u v dx (-dy)
    + sampleGray img u v (-dx) dy
    + sampleGray img u v 0 dy * 2
    + sampleGray img u v dx dy

/-- Convolution of the luminance field with an 8-tap kernel: each entry is
a weight and a neighbour position (column `j`, row `i`), evaluated at the
UV offset `(j * dx, i * dy)`. -/
def convolve8 (kernel : List (ℚ × ℤ × ℤ)) (img : Image) (u v dx dy : ℚ) : ℚ :=
  (kernel.map (fun e =>
    e.1 * sampleGray img u v ((e.2.1 : ℚ) * dx) ((e.2.2 : ℚ) * dy))).sum

/-- The canonical Sobel Gx kernel `[-1 0 1; -2 0 2; -1 0 1]` on the eight
neighbouring taps (the zero-weight centre is excluded). -/
def kernelGx : List (ℚ × ℤ × ℤ) :=
  [(-1, -1, -1), (0, 0, -1), (1, 1, -1),
   (-2, -1, 0), (2, 1, 0),
   (-1, -1, 1), (0, 0, 1), (1, 1, 1)]

/-- The canonical Sobel Gy kernel `[-1 -2 -1; 0 0 0; 1 2 1]` on the eight
neighbouring taps (the zero-weight centre is excluded). -/
def kernelGy : List (ℚ × ℤ × ℤ) :=
  [(-1, -1, -1), (-2, 0, -1), (-1, 1, -1),
   (0, -1, 0), (0, 1, 0),
   (1, -1, 1), (2, 0, 1), (1, 1, 1)]

/-- TSL `clamp(x, 0.0, 1.0)`. -/
noncomputable def clamp01R (x : ℝ) : ℝ := min (max x 0) 1

/-- TSL `mix(a, b, t)` (linear interpolation; a boolean `t` enters as 1 or
0, making it a select). -/
noncomputable def mixR (a b t : ℝ) : ℝ := a * (1 - t) + b * t

/-- CMYK decomposition of a sampled cell colour as built in
`halftoneCMYK.createNode` (`createHalftone` helper):
`k = min(1-r, min(1-g, 1-b))`, `invK = 1-k`, and each chromatic plate is
`mix(0.0, (1-channel-k)/invK, invK > 0)`. -/
noncomputable def cmykOfSample (r g b : ℝ) : ℝ × ℝ × ℝ × ℝ :=
  let k := min (1 - r) (min (1 - g) (1 - b))
  let invK := 1 - k
  let c := mixR 0 ((1 - r - k) / invK) (if invK > 0 then 1 else 0)
  let m := mixR 0 ((1 - g - k) / invK) (if invK > 0 then 1 else 0)
  let y := mixR 0 ((1 - b - k) / invK) (if invK > 0 then 1 else 0)
  (c, m, y, k)

/-- Dot radius of one halftone plate as built in
`halftoneCMYK.createNode`: `radius = dotSizeU.mul(sqrt(clamp(cov, 0.0, 1.0)))`. -/
noncomputable def plateRadius (dotSize cov : ℝ) : ℝ :=
  dotSize * Real.sqrt (clamp01R cov)

/-- Modelled from the spec: the CMYK ink-coverage decomposition in the
words of the specification, for comparison with the shader graph —
`K = min(1-R, 1-G, 1-B)` and `C,M,Y = (1-channel-K)/(1-K)` taken as 0 when
`1-K` is not positive. -/
noncomputable def specInkCoverage (r g b : ℝ) : ℝ × ℝ × ℝ × ℝ :=
  let k := min (1 - r) (min (1 - g) (1 - b))
  let c := if 1 - k > 0 then (1 - r - k) / (1 - k) else 0
  let m := if 1 - k > 0 then (1 - g - k) / (1 - k) else 0
  let y := if 1 - k > 0 then (1 - b - k) / (1 - k) else 0
  (c, m, y, k)

/-! Theorems settling the claims. -/

/-- C10: in `exportAnimationFrames`, for a sweep from `startAzimuth = 0`
to `endAzimuth = 360` over `steps = 36`, the azimuth assigned at
0-indexed step `i` equals `0 + (360 - 0) * i / (36 - 1)` (exactly, hence
within floating tolerance), and the sequence of assigned azimuths is
monotonically non-decreasing. -/
theorem animation_step_determinism :
    (∀ i : ℕ, i < 36 →
      azimuthAt 0 360 36 i = 0 + (360 - 0) * (i : ℚ) / (36 - 1)) ∧
    (∀ i j : ℕ, i ≤ j → j < 36 →
      azimuthAt 0 360 36 i ≤ azimuthAt 0 360 36 j) := by
  have hmax : max (((36 : ℕ) : ℚ) - 1) 1 = 35 := by norm_num
  constructor
  · intro i _
    rw [azimuthAt, hmax]
    ring
  · intro i j hij _
    rw [azimuthAt, azimuthAt, hmax]
    have hc : (i : ℚ) ≤ (j : ℚ) := by exact_mod_cast hij
    have hi : (0 : ℚ) ≤ (i : ℚ) := by positivity
    nlinarith

/-- Witness for C10 at concrete steps 7 and 2 ≤ 3. -/
theorem animation_step_determinism_witness :
    azimuthAt 0 360 36 7 = 0 + (360 - 0) * (7 : ℚ) / (36 - 1) ∧
    azimuthAt 0 360 36 2 ≤ azimuthAt 0 360 36 3 :=
  ⟨animation_step_determinism.1 7 (by norm_num),
   animation_step_determinism.2 2 3 (by norm_num) (by norm_num)⟩

/-- C8 counterexample: the non-zero weight triple (0.0005, 0, 0) sums to
less than the 0.001 divisor floor, so the normalised coefficients sum to
one half, not to 1 within 1e-6, refuting the claim for arbitrary non-zero
triples. -/
theorem grayscale_norm_small_sum_cex :
    ((1 / 2000 : ℚ), (0 : ℚ), (0 : ℚ)) ≠ ((0 : ℚ), (0 : ℚ), (0 : ℚ)) ∧
    ¬ (|(grayNormCoeffs (1/2000) 0 0).1 + (grayNormCoeffs (1/2000) 0 0).2.1 +
        (grayNormCoeffs (1/2000) 0 0).2.2 - 1| ≤ 1 / 1000000) := by
  constructor
  · simp only [ne_eq, Prod.mk.injEq, not_and]
    norm_num
  · have h : (grayNormCoeffs (1/2000) 0 0).1 + (grayNormCoeffs (1/2000) 0 0).2.1 +
        (grayNormCoeffs (1/2000) 0 0).2.2 = 1/2 := by
      norm_num [grayNormCoeffs]
    rw [h]
    rw [show |(1/2 - 1 : ℚ)| = 1/2 by rw [abs_sub_comm]; norm_num [abs_of_nonneg]]
    norm_num

/-- C8 (amended): for any weight triple whose raw sum reaches the 0.001
divisor floor, the normalised luminance coefficients of the Grayscale
effect sum to 1 within 1e-6 (in fact exactly), even when the raw sum
differs from 1. -/
theorem grayscale_weight_normalization (rW gW bW : ℚ)
    (h : 1/1000 ≤ rW + gW + bW) :
    |(grayNormCoeffs rW gW bW).1 + (grayNormCoeffs rW gW bW).2.1 +
      (grayNormCoeffs rW gW bW).2.2 - 1| ≤ 1 / 1000000 := by
  have hpos : (0 : ℚ) < rW + gW + bW := by linarith
  have hne : rW + gW + bW ≠ 0 := ne_of_gt hpos
  have hm : max (rW + gW + bW) (1/1000) = rW + gW + bW := max_eq_left h
  unfold grayNormCoeffs
  simp only [hm]
  rw [div_add_div_same, div_add_div_same, div_self hne]
  norm_num

/-- Witness for C8 (amended) at the claim example (1, 1, 1): three raw
weights of 1.0 normalise to coefficients summing to 1. -/
theorem grayscale_weight_normalization_witness :
    (1 : ℚ)/1000 ≤ 1 + 1 + 1 ∧
    |(grayNormCoeffs 1 1 1).1 + (grayNormCoeffs 1 1 1).2.1 +
      (grayNormCoeffs 1 1 1).2.2 - 1| ≤ 1 / 1000000 :=
  ⟨by norm_num, grayscale_weight_normalization 1 1 1 (by norm_num)⟩

/-- C9: when the screen-rect computation returns `null` (clamped width or
height non-positive), both the snapshot and the animation-export capture
paths fall back to the full frame: the readback region is
`(0, 0, w, h)`, so the output image dimensions equal the full canvas
width and height. -/
theorem degenerate_crop_full_frame (proj : Q3 → ℚ × ℚ) (bmin bmax : Q3)
    (w h : ℤ) (hnone : computePlaneBounds proj bmin bmax w h = none) :
    snapshotReadRegion (computePlaneBounds proj bmin bmax w h) w h = (0, 0, w, h) ∧
    exportReadRegion (computePlaneBounds proj bmin bmax w h) w h = (0, 0, w, h) := by
  rw [hnone]
  exact ⟨rfl, rfl⟩

/-- Witness for C9: a projection sending every corner to NDC (-3, -3)
puts the plane fully off-screen, and both capture paths read the full
100 by 50 frame. -/
theorem degenerate_crop_full_frame_witness :
    computePlaneBounds (fun _ => ((-3 : ℚ), (-3 : ℚ))) (0, 0, 0) (1, 1, 1) 100 50 = none ∧
    snapshotReadRegion
      (computePlaneBounds (fun _ => ((-3 : ℚ), (-3 : ℚ))) (0, 0, 0) (1, 1, 1) 100 50)
      100 50 = (0, 0, 100, 50) ∧
    exportReadRegion
      (computePlaneBounds (fun _ => ((-3 : ℚ), (-3 : ℚ))) (0, 0, 0) (1, 1, 1) 100 50)
      100 50 = (0, 0, 100, 50) := by
  have hnone : computePlaneBounds (fun _ => ((-3 : ℚ), (-3 : ℚ)))
      (0, 0, 0) (1, 1, 1) 100 50 = none := by
    norm_num [computePlaneBounds, foldMinQ, foldMaxQ, List.foldl]
  exact ⟨hnone, (degenerate_crop_full_frame _ _ _ _ _ hnone).1,
    (degenerate_crop_full_frame _ _ _ _ _ hnone).2⟩

/-- C4: if `applyEffect` runs with a selected name that is neither
`"None"` nor in the effect registry, and a non-null current texture, then
afterwards the instance is null and the material colorNode is cleared to
null, regardless of the prior state. -/
theorem unknown_effect_clears_state (st : EffectState) (mat : Material)
    (tex : Texture) (px : Vec2) (hn : st.selected ≠ "None")
    (hk : kindOfName st.selected = none) :
    (applyEffect st mat (some tex) px).1.inst = none ∧
    (applyEffect st mat (some tex) px).2.colorNode = none := by
  by_cases hc : mat.colorNode = none <;>
    simp [applyEffect, hn, hk, hc]

/-- Witness for C4 with the unknown name "Bogus" and a prior state that
still holds a live Sobel instance and an attached graph. -/
theorem unknown_effect_clears_state_witness :
    (applyEffect
      { selected := "Bogus",
        inst := some (createNode .sobel ⟨0⟩ (1/1024, 1/1024)),
        params := [("threshold", .num (1/2))] }
      { colorNode := some (createNode .sobel ⟨0⟩ (1/1024, 1/1024)),
        needsUpdate := false }
      (some ⟨0⟩) (1/1024, 1/1024)).1.inst = none ∧
    (applyEffect
      { selected := "Bogus",
        inst := some (createNode .sobel ⟨0⟩ (1/1024, 1/1024)),
        params := [("threshold", .num (1/2))] }
      { colorNode := some (createNode .sobel ⟨0⟩ (1/1024, 1/1024)),
        needsUpdate := false }
      (some ⟨0⟩) (1/1024, 1/1024)).2.colorNode = none :=
  unknown_effect_clears_state _ _ _ _ (by simp) (by simp [kindOfName])

/-- C5: on every exit path of `exportAnimationFrames` and `saveSnapshot`
(for any per-step readback outcomes, including a throwing readback), the
offscreen render target is disposed, the output target is restored to the
presentable surface, the material dithering flag ends at its prior value,
and the continuous render loop is resumed. -/
theorem capture_cleanup_always_runs (st0 : CaptureState)
    (startAzimuth endAzimuth : ℚ) (steps : ℕ) (rb : ℕ → Except ℕ Unit)
    (rbSnap : Except ℕ Unit) (hsp : st0.snapshotInProgress = false) :
    ((runExportAnimationFrames st0 startAzimuth endAzimuth steps rb).2.rtDisposed = true ∧
     (runExportAnimationFrames st0 startAzimuth endAzimuth steps rb).2.outputTarget = none ∧
     (runExportAnimationFrames st0 startAzimuth endAzimuth steps rb).2.dithering = st0.dithering ∧
     (runExportAnimationFrames st0 startAzimuth endAzimuth steps rb).2.loopRunning = true) ∧
    ((runSaveSnapshot st0 rbSnap).rtDisposed = true ∧
     (runSaveSnapshot st0 rbSnap).outputTarget = none ∧
     (runSaveSnapshot st0 rbSnap).dithering = st0.dithering ∧
     (runSaveSnapshot st0 rbSnap).loopRunning = true) := by
  constructor
  · simp [runExportAnimationFrames]
  · cases rbSnap <;> simp [runSaveSnapshot, hsp]

/-- Witness for C5 with a readback that throws at every step. -/
theorem capture_cleanup_always_runs_witness :
    ((runExportAnimationFrames ⟨true, none, true, true, false, 0⟩ 0 360 3
        (fun _ => .error 7)).2.rtDisposed = true ∧
     (runExportAnimationFrames ⟨true, none, true, true, false, 0⟩ 0 360 3
        (fun _ => .error 7)).2.outputTarget = none ∧
     (runExportAnimationFrames ⟨true, none, true, true, false, 0⟩ 0 360 3
        (fun _ => .error 7)).2.dithering = true ∧
     (runExportAnimationFrames ⟨true, none, true, true, false, 0⟩ 0 360 3
        (fun _ => .error 7)).2.loopRunning = true) ∧
    ((runSaveSnapshot ⟨true, none, true, true, false, 0⟩ (.error 3)).rtDisposed = true ∧
     (runSaveSnapshot ⟨true, none, true, true, false, 0⟩ (.error 3)).outputTarget = none ∧
     (runSaveSnapshot ⟨true, none, true, true, false, 0⟩ (.error 3)).dithering = true ∧
     (runSaveSnapshot ⟨true, none, true, true, false, 0⟩ (.error 3)).loopRunning = true) :=
  capture_cleanup_always_runs ⟨true, none, true, true, false, 0⟩ 0 360 3
    (fun _ => .error 7) (.error 3) rfl

/-- C6: for every source image, the gradients built by the gradient-based
effects equal the convolution of the BT.601 luminance field with the
canonical 3x3 Sobel kernels over the eight neighbouring UV offsets. -/
theorem sobel_kernel_correctness (img : Image) (u v dx dy : ℚ) :
    sobelGx img u v dx dy = convolve8 kernelGx img u v dx dy ∧
    sobelGy img u v dx dy = convolve8 kernelGy img u v dx dy := by
  constructor <;>
    simp only [sobelGx, sobelGy, convolve8, kernelGx, kernelGy, List.map,
      List.sum_cons, List.sum_nil] <;>
    push_cast <;>
    ring_nf

/-- Helper: the shader CMYK decomposition agrees with the decomposition
written in the words of the spec (the `mix(0, v, invK > 0)` select equals
the guarded division). -/
lemma cmyk_matches_spec (r g b : ℝ) :
    cmykOfSample r g b = specInkCoverage r g b := by
  unfold cmykOfSample specInkCoverage
  by_cases h : (1 : ℝ) - min (1 - r) (min (1 - g) (1 - b)) > 0 <;>
    simp only [h, if_true, if_false, ite_true, ite_false, mixR,
      Prod.mk.injEq] <;>
    exact ⟨by ring, by ring, by ring, trivial⟩

/-- Helper: TSL clamp to the unit interval is non-negative. -/
lemma clamp01R_nonneg (x : ℝ) : 0 ≤ clamp01R x :=
  le_min (le_max_right x 0) zero_le_one

/-- C7: in the Halftone CMYK effect, for every sampled cell colour, each
plate dot radius equals `dotSize` times the square root of that plate
clamped ink coverage, where the coverage comes from the spec CMYK
decomposition; squaring shows the dot area is proportional to coverage
(area-proportional, not linear). -/
theorem cmyk_halftone_area_law (r g b d : ℝ) :
    (plateRadius d (cmykOfSample r g b).1 =
       d * Real.sqrt (clamp01R (specInkCoverage r g b).1) ∧
     plateRadius d (cmykOfSample r g b).2.1 =
       d * Real.sqrt (clamp01R (specInkCoverage r g b).2.1) ∧
     plateRadius d (cmykOfSample r g b).2.2.1 =
       d * Real.sqrt (clamp01R (specInkCoverage r g b).2.2.1) ∧
     plateRadius d (cmykOfSample r g b).2.2.2 =
       d * Real.sqrt (clamp01R (specInkCoverage r g b).2.2.2)) ∧
    ((plateRadius d (cmykOfSample r g b).1) ^ 2 =
       d ^ 2 * clamp01R (specInkCoverage r g b).1 ∧
     (plateRadius d (cmykOfSample r g b).2.1) ^ 2 =
       d ^ 2 * clamp01R (specInkCoverage r g b).2.1 ∧
     (plateRadius d (cmykOfSample r g b).2.2.1) ^ 2 =
       d ^ 2 * clamp01R (specInkCoverage r g b).2.2.1 ∧
     (plateRadius d (cmykOfSample r g b).2.2.2) ^ 2 =
       d ^ 2 * clamp01R (specInkCoverage r g b).2.2.2) := by
  rw [cmyk_matches_spec]
  refine ⟨⟨rfl, rfl, rfl, rfl⟩, ?_, ?_, ?_, ?_⟩ <;>
    rw [plateRadius, mul_pow, Real.sq_sqrt (clamp01R_nonneg _)]

/-- C1 (failing evaluation): exporting an active Sobel Edge effect whose
cached params are `{threshold: 0.5, invert: true}` produces exactly that
record, but re-importing it leaves the rebuilt live instance at the
DEFAULT parameters `{threshold: 0.1, invert: false}`: the rebuild
callback resets `eState.params` to `effect.defaults()` before reapplying,
so the imported record is discarded and the round trip is lossy. -/
theorem settings_roundtrip_resets_params :
    let custom : PRec := [("threshold", .num (1/2)), ("invert", .boolean true)]
    let st : EffectState :=
      { selected := "Sobel Edge",
        inst := some (instSetParams (createNode .sobel ⟨0⟩ (1/1024, 1/1024)) custom),
        params := custom }
    let exported := gatherSettingsEffect st
    let r := applySettingsDataEffect exported st ⟨none, false⟩ (some ⟨0⟩) (1/1024, 1/1024)
    exported = some ("Sobel Edge", custom) ∧
    r.1.selected = "Sobel Edge" ∧
    r.1.inst.map instGetParams = some (effDefaults .sobel) ∧
    effDefaults .sobel ≠ custom := by
  simp [gatherSettingsEffect, applySettingsDataEffect, rebuildEffectUI,
    applyEffect, kindOfName, createNode, uniInit, instSetParams, uniSet,
    instGetParams, uniGet, effDefaults, PRec.get, PVal.truthy, PVal.toNum,
    List.lookup, show ((0:ℚ) > 1/2) = False by norm_num,
    show ((1:ℚ)/10 = 1/2) = False by norm_num]

/-- C2 counterexample: the record produced by `halftone.defaults()` does
not round-trip: its `colorMode` field is the number 0, and after
`createNode` then `setParams(defaults())`, `getParams()` returns
`colorMode` as the boolean `false`, which is not equal to the numeric 0
in the input record. -/
theorem halftone_defaults_roundtrip_cex :
    instGetParams (instSetParams (createNode .halftone ⟨0⟩ (1/1024, 1/1024))
        (effDefaults .halftone)) ≠ effDefaults .halftone := by
  simp [instGetParams, instSetParams, createNode, uniInit, uniSet, uniGet,
    effDefaults, PRec.get, PVal.truthy, PVal.toNum, List.lookup,
    show ((0:ℚ) > 1/2) = False by norm_num]

/-- C2 (amended): for every effect definition in the registry and every
parameter record in which numeric fields hold numbers and the
boolean-coerced fields (`invert`, `colorMode`) hold booleans — which
covers every `defaults()` record except the Halftone one, whose
`colorMode` is the number 0 — `getParams` after `createNode` then
`setParams` returns a record exactly equal to the input. -/
theorem param_roundtrip_boolean_typed :
    (∀ (tx : Texture) (px : Vec2) (s : ℚ),
      instGetParams (instSetParams (createNode .normalMap tx px)
        [("strength", .num s)]) = [("strength", PVal.num s)]) ∧
    (∀ (tx : Texture) (px : Vec2) (t : ℚ) (b : Bool),
      instGetParams (instSetParams (createNode .sobel tx px)
        [("threshold", .num t), ("invert", .boolean b)]) =
      [("threshold", PVal.num t), ("invert", PVal.boolean b)]) ∧
    (∀ (tx : Texture) (px : Vec2) (s a : ℚ),
      instGetParams (instSetParams (createNode .emboss tx px)
        [("strength", .num s), ("angle", .num a)]) =
      [("strength", PVal.num s), ("angle", PVal.num a)]) ∧
    (∀ (tx : Texture) (px : Vec2) (rW gW bW : ℚ),
      instGetParams (instSetParams (createNode .grayscale tx px)
        [("rWeight", .num rW), ("gWeight", .num gW), ("bWeight", .num bW)]) =
      [("rWeight", PVal.num rW), ("gWeight", PVal.num gW),
       ("bWeight", PVal.num bW)]) ∧
    (∀ (tx : Texture) (px : Vec2) (it cx cy : ℚ),
      instGetParams (instSetParams (createNode .chromatic tx px)
        [("intensity", .num it), ("centerX", .num cx), ("centerY", .num cy)]) =
      [("intensity", PVal.num it), ("centerX", PVal.num cx),
       ("centerY", PVal.num cy)]) ∧
    (∀ (tx : Texture) (px : Vec2) (ds a : ℚ) (cm : Bool) (m rt : ℚ),
      instGetParams (instSetParams (createNode .halftone tx px)
        [("dotSize", .num ds), ("angle", .num a), ("colorMode", .boolean cm),
         ("mode", .num m), ("ringThickness", .num rt)]) =
      [("dotSize", PVal.num ds), ("angle", PVal.num a),
       ("colorMode", PVal.boolean cm), ("mode", PVal.num m),
       ("ringThickness", PVal.num rt)]) ∧
    (∀ (tx : Texture) (px : Vec2) (ps ds c m y k : ℚ),
      instGetParams (instSetParams (createNode .halftoneCMYK tx px)
        [("pixelSize", .num ps), ("dotSize", .num ds), ("cyanStrength", .num c),
         ("magentaStrength", .num m), ("yellowStrength", .num y),
         ("blackStrength", .num k)]) =
      [("pixelSize", PVal.num ps), ("dotSize", PVal.num ds),
       ("cyanStrength", PVal.num c), ("magentaStrength", PVal.num m),
       ("yellowStrength", PVal.num y), ("blackStrength", PVal.num k)]) := by
  have h0 : ((0:ℚ) > 1/2) = False := by norm_num
  have h1 : ((1:ℚ) > 1/2) = True := by norm_num
  refine ⟨fun tx px s => ?_, fun tx px t b => ?_, fun tx px s a => ?_,
    fun tx px rW gW bW => ?_, fun tx px it cx cy => ?_,
    fun tx px ds a cm m rt => ?_, fun tx px ps ds c m y k => ?_⟩
  · simp [instGetParams, instSetParams, createNode, uniInit, uniSet, uniGet,
      PRec.get, PVal.truthy, PVal.toNum, List.lookup]
  · cases b <;>
      simp [instGetParams, instSetParams, createNode, uniInit, uniSet, uniGet,
        PRec.get, PVal.truthy, PVal.toNum, List.lookup, h0, h1] <;>
      norm_num
  · simp [instGetParams, instSetParams, createNode, uniInit, uniSet, uniGet,
      PRec.get, PVal.truthy, PVal.toNum, List.lookup]
  · simp [instGetParams, instSetParams, createNode, uniInit, uniSet, uniGet,
      PRec.get, PVal.truthy, PVal.toNum, List.lookup]
  · simp [instGetParams, instSetParams, createNode, uniInit, uniSet, uniGet,
      PRec.get, PVal.truthy, PVal.toNum, List.lookup]
  · cases cm <;>
      simp [instGetParams, instSetParams, createNode, uniInit, uniSet, uniGet,
        PRec.get, PVal.truthy, PVal.toNum, List.lookup, h0, h1] <;>
      norm_num
  · simp [instGetParams, instSetParams, createNode, uniInit, uniSet, uniGet,
      PRec.get, PVal.truthy, PVal.toNum, List.lookup]

set_option maxHeartbeats 1000000 in
/-- C3 counterexample: for a 1x2 readback buffer (stride 64 floats, the
256-byte-aligned stride for width 1) whose bottom row is black and top
row is white, the conversion used by `exportAnimationFrames` (row flip)
and the one used by `saveSnapshot` (no row flip) produce different pixel
buffers, so an equal-state snapshot and export frame are not
pixel-identical. -/
theorem snapshot_export_conversion_cex :
    exportFloatToDitheredUint8
        (fun i => if i < 64 then (if i = 3 then (1 : ℚ) else 0) else 1) 1 2 64 ≠
      snapFloatToDitheredUint8
        (fun i => if i < 64 then (if i = 3 then (1 : ℚ) else 0) else 1) 1 2 64 := by
  have hr2 : List.range 2 = [0, 1] := rfl
  have hr1 : List.range 1 = [0] := rfl
  simp [exportFloatToDitheredUint8, snapFloatToDitheredUint8, hr2, hr1,
    quantRGB, quantAlpha, jsRound]
  norm_num [show exportBAYER8[0]?.getD 0 = 0 from rfl,
    show exportBAYER8[8]?.getD 0 = 32 from rfl,
    show snapBAYER8[0]?.getD 0 = 0 from rfl,
    show snapBAYER8[8]?.getD 0 = 32 from rfl,
    inf_eq_min, sup_eq_max, min_def, max_def]

/-- Helper: congruence for `List.flatMap` under a pointwise equality on
the list members. -/
lemma flatMap_congr_mem {α β : Type} {l : List α} {f g : α → List β}
    (h : ∀ a ∈ l, f a = g a) : l.flatMap f = l.flatMap g := by
  induction l with
  | nil => rfl
  | cons x xs ih =>
    simp only [List.flatMap_cons]
    rw [h x (by simp), ih (fun a ha => h a (by simp [ha]))]

/-- Helper: reading a row-flipped buffer at row `y`, intra-row offset `j`,
is reading the original buffer at row `height - 1 - y`. -/
lemma rowFlipBuffer_index (src : ℕ → ℚ) (height stride y j : ℕ)
    (hj : j < stride) :
    rowFlipBuffer height stride src (y * stride + j) =
      src ((height - 1 - y) * stride + j) := by
  have hs : 0 < stride := Nat.lt_of_le_of_lt (Nat.zero_le j) hj
  have hdiv : (y * stride + j) / stride = y := by
    rw [Nat.add_comm, Nat.mul_comm, Nat.add_mul_div_left _ _ hs,
      Nat.div_eq_of_lt hj, Nat.zero_add]
  have hmod : (y * stride + j) % stride = j := by
    rw [Nat.add_comm, Nat.mul_comm, Nat.add_mul_mod_self_left,
      Nat.mod_eq_of_lt hj]
  unfold rowFlipBuffer
  rw [hdiv, hmod]

/-- C3 (amended): the two conversions share the identical per-pixel
dithered quantisation (same Bayer matrix indexed by destination
coordinates, same rounding and clamping), and differ exactly by row
orientation: on any buffer whose rows fit the aligned stride, the
export-frames conversion equals the snapshot conversion applied to the
row-reversed buffer. -/
theorem snapshot_export_conversion_row_flip (src : ℕ → ℚ)
    (width height stride : ℕ) (h4w : 4 * width ≤ stride) :
    exportFloatToDitheredUint8 src width height stride =
      snapFloatToDitheredUint8 (rowFlipBuffer height stride src)
        width height stride := by
  unfold exportFloatToDitheredUint8 snapFloatToDitheredUint8
  refine flatMap_congr_mem (fun y _ => ?_)
  refine flatMap_congr_mem (fun x hx => ?_)
  have hxw : x < width := List.mem_range.mp hx
  have e0 : rowFlipBuffer height stride src (y * stride + x * 4) =
      src ((height - 1 - y) * stride + x * 4) :=
    rowFlipBuffer_index src height stride y (x * 4) (by omega)
  have e1 : rowFlipBuffer height stride src (y * stride + x * 4 + 1) =
      src ((height - 1 - y) * stride + x * 4 + 1) := by
    rw [Nat.add_assoc, Nat.add_assoc]
    exact rowFlipBuffer_index src height stride y (x * 4 + 1) (by omega)
  have e2 : rowFlipBuffer height stride src (y * stride + x * 4 + 2) =
      src ((height - 1 - y) * stride + x * 4 + 2) := by
    rw [Nat.add_assoc, Nat.add_assoc]
    exact rowFlipBuffer_index src height stride y (x * 4 + 2) (by omega)
  have e3 : rowFlipBuffer height stride src (y * stride + x * 4 + 3) =
      src ((height - 1 - y) * stride + x * 4 + 3) := by
    rw [Nat.add_assoc, Nat.add_assoc]
    exact rowFlipBuffer_index src height stride y (x * 4 + 3) (by omega)
  simp only [e0, e1, e2, e3, show snapBAYER8 = exportBAYER8 from rfl]

/-- Witness for C3 (amended) on a concrete 1x2 buffer of stride 4. -/
theorem snapshot_export_conversion_row_flip_witness :
    exportFloatToDitheredUint8 (fun i => (i : ℚ)) 1 2 4 =
      snapFloatToDitheredUint8 (rowFlipBuffer 2 4 (fun i => (i : ℚ))) 1 2 4 :=
  snapshot_export_conversion_row_flip (fun i => (i : ℚ)) 1 2 4 (by norm_num)

end RTIWebSim
